import Mathlib

/-!
Verification development for the lead-capture server (`src/server.js`).

The repository ships two server variants concatenated in `src/server.js`:
a legacy variant (first document) and the hardened variant (second
document) whose request-security pipeline the specification describes.
Definitions below are shallow embeddings of that code.  External library
primitives that the code calls (Node `crypto` HMAC-SHA256, the
`jsonwebtoken` sign/verify pair, the `express-rate-limit` fixed-window
counter, the `csurf` double-submit guard) are not part of the repository
source; they are modelled from the specification's contracts, faithful to
its words, and marked `Modelled from the spec:` in their doc comments.
-/

namespace LeadServer

/-! ## Bytes, hex, SHA-256 and HMAC-SHA256

The hardened server signs outbound webhook payloads with
`crypto.createHmac('sha256', secret).update(body).digest('hex')`
(src/server.js lines 1336-1344).  HMAC-SHA256 is implemented here over
`List Nat` bytes, each byte `< 256`, words taken mod `2^32`.
-/

/-- Truncate to a 32-bit word. -/
def w32 (n : Nat) : Nat := n % 4294967296

/-- Right rotation of a 32-bit word by `n` places (0 < n < 32). -/
def rotr32 (n x : Nat) : Nat := x / 2 ^ n + (x % 2 ^ n) * 2 ^ (32 - n)

/-- Bitwise complement of a 32-bit word. -/
def not32 (x : Nat) : Nat := 4294967295 - x

/-- SHA-256 big sigma 0. -/
def bigSigma0 (x : Nat) : Nat := rotr32 2 x ^^^ rotr32 13 x ^^^ rotr32 22 x

/-- SHA-256 big sigma 1. -/
def bigSigma1 (x : Nat) : Nat := rotr32 6 x ^^^ rotr32 11 x ^^^ rotr32 25 x

/-- SHA-256 small sigma 0. -/
def smallSigma0 (x : Nat) : Nat := rotr32 7 x ^^^ rotr32 18 x ^^^ x / 2 ^ 3

/-- SHA-256 small sigma 1. -/
def smallSigma1 (x : Nat) : Nat := rotr32 17 x ^^^ rotr32 19 x ^^^ x / 2 ^ 10

/-- SHA-256 choice function. -/
def chFun (e f g : Nat) : Nat := (e &&& f) ^^^ (not32 e &&& g)

/-- SHA-256 majority function. -/
def majFun (a b c : Nat) : Nat := (a &&& b) ^^^ (a &&& c) ^^^ (b &&& c)

/-- The 64 SHA-256 round constants (FIPS 180-4), written in decimal. -/
def sha256K : List Nat :=
  [1116352408, 1899447441, 3049323471, 3921009573, 961987163, 1508970993,
   2453635748, 2870763221, 3624381080, 310598401, 607225278, 1426881987,
   1925078388, 2162078206, 2614888103, 3248222580, 3835390401, 4022224774,
   264347078, 604807628, 770255983, 1249150122, 1555081692, 1996064986,
   2554220882, 2821834349, 2952996808, 3210313671, 3336571891, 3584528711,
   113926993, 338241895, 666307205, 773529912, 1294757372, 1396182291,
   1695183700, 1986661051, 2177026350, 2456956037, 2730485921, 2820302411,
   3259730800, 3345764771, 3516065817, 3600352804, 4094571909, 275423344,
   430227734, 506948616, 659060556, 883997877, 958139571, 1322822218,
   1537002063, 1747873779, 1955562222, 2024104815, 2227730452, 2361852424,
   2428436474, 2756734187, 3204031479, 3329325298]

/-- The SHA-256 initial hash value (FIPS 180-4), written in decimal. -/
def sha256H0 : List Nat :=
  [1779033703, 3144134277, 1013904242, 2773480762,
   1359893119, 2600822924, 528734635, 1541459225]

/-- Pack big-endian bytes into 32-bit words, four at a time. -/
def toWords : List Nat → List Nat
  | b0 :: b1 :: b2 :: b3 :: rest => (((b0 * 256 + b1) * 256 + b2) * 256 + b3) :: toWords rest
  | _ => []

/-- Extend a 16-word message block to the 64-word schedule, `fuel` steps. -/
def extendSchedule : Nat → List Nat → List Nat
  | 0, ws => ws
  | n + 1, ws =>
    let len := ws.length
    let w := w32 (smallSigma1 (ws.getD (len - 2) 0) + ws.getD (len - 7) 0 +
                  smallSigma0 (ws.getD (len - 15) 0) + ws.getD (len - 16) 0)
    extendSchedule n (ws ++ [w])

/-- One SHA-256 round on the eight-word working state, fed `k + w`. -/
def roundStep (st : List Nat) (kw : Nat) : List Nat :=
  match st with
  | [a, b, c, d, e, f, g, h] =>
    let t1 := w32 (h + bigSigma1 e + chFun e f g + kw)
    let t2 := w32 (bigSigma0 a + majFun a b c)
    [w32 (t1 + t2), a, b, c, w32 (d + t1), e, f, g]
  | other => other

/-- SHA-256 compression of one 64-byte block into the running hash. -/
def sha256Compress (h : List Nat) (block : List Nat) : List Nat :=
  let ws := extendSchedule 48 (toWords block)
  let kws := List.zipWith (fun k w => w32 (k + w)) sha256K ws
  let st := kws.foldl roundStep h
  List.zipWith (fun x y => w32 (x + y)) h st

/-- Big-endian 8-byte encoding of the bit length. -/
def lenBytes (n : Nat) : List Nat :=
  [n / 2 ^ 56 % 256, n / 2 ^ 48 % 256, n / 2 ^ 40 % 256, n / 2 ^ 32 % 256,
   n / 2 ^ 24 % 256, n / 2 ^ 16 % 256, n / 2 ^ 8 % 256, n % 256]

/-- SHA-256 padding: append `0x80`, zeros, then the 64-bit message bit length. -/
def padMsg (msg : List Nat) : List Nat :=
  let L := msg.length
  let k := (64 - (L + 9) % 64) % 64
  msg ++ 128 :: List.replicate k 0 ++ lenBytes (8 * L)

/-- Split a byte list into 64-byte blocks, driven by explicit fuel. -/
def toBlocksFuel : Nat → List Nat → List (List Nat)
  | 0, _ => []
  | n + 1, l => if l.isEmpty then [] else l.take 64 :: toBlocksFuel n (l.drop 64)

/-- Split a byte list into 64-byte blocks. -/
def toBlocks (l : List Nat) : List (List Nat) := toBlocksFuel (l.length / 64 + 1) l

/-- Serialize a 32-bit word to four big-endian bytes. -/
def wordBytes (w : Nat) : List Nat := [w / 2 ^ 24 % 256, w / 2 ^ 16 % 256, w / 2 ^ 8 % 256, w % 256]

/-- SHA-256 of a byte list, as 32 bytes. -/
def sha256 (msg : List Nat) : List Nat :=
  let hs := (toBlocks (padMsg msg)).foldl sha256Compress sha256H0
  hs.foldr (fun w acc => wordBytes w ++ acc) []

/-- HMAC-SHA256 (RFC 2104) with a 64-byte block size. -/
def hmacSha256 (key msg : List Nat) : List Nat :=
  let k0 := if 64 < key.length then sha256 key else key
  let kpad := k0 ++ List.replicate (64 - k0.length) 0
  sha256 ((kpad.map (fun b => b ^^^ 92)) ++ sha256 ((kpad.map (fun b => b ^^^ 54)) ++ msg))

/-- Lower-case hex digit for a value below 16. -/
def hexDigit (n : Nat) : Char := if n < 10 then Char.ofNat (48 + n) else Char.ofNat (87 + n)

/-- Lower-case hex string of a byte list, as `Buffer.digest('hex')` renders it. -/
def toHexStr (bs : List Nat) : String :=
  String.mk (bs.foldr (fun b acc => hexDigit (b / 16) :: hexDigit (b % 16) :: acc) [])

/-- Byte view of an ASCII string (code points; agrees with UTF-8 on ASCII). -/
def strBytes (s : String) : List Nat := s.data.map Char.toNat

/-- Webhook signature (src/server.js lines 1336-1344):
`crypto.createHmac('sha256', secret).update(payload).digest('hex')`
over the serialized payload string. -/
def webhookSignature (secret payload : String) : String :=
  toHexStr (hmacSha256 (strBytes secret) (strBytes payload))

/-- Number of positions at which two byte lists differ. -/
def diffCount : List Nat → List Nat → Nat
  | [], [] => 0
  | [], ys => ys.length
  | xs, [] => xs.length
  | x :: xs, y :: ys => (if x = y then 0 else 1) + diffCount xs ys

/-! ## Session tokens (JWT)

The hardened server issues tokens with
`jwt.sign({id, email, role}, JWT_SECRET, {expiresIn: '7d'})`
(src/server.js lines 1136-1140) and verifies them with
`jwt.verify(token, JWT_SECRET)` (line 1085).  The `jsonwebtoken` library
itself is not repository source; `jwtSign`/`jwtVerify` are modelled from
the spec (§4.2): the payload is tamper-evident via a symmetric signature
keyed by the server secret, and verification is Invalid when the signature
does not match or the current time has reached the expiry. -/

/-- JWT claims the login route signs: `{id, email, role}` plus the
issued-at and expires-at timestamps the library adds. -/
structure JwtPayload where
  id : Nat
  email : String
  role : String
  iat : Nat
  exp : Nat
deriving DecidableEq, Repr

/-- Serialization of the payload the signature is computed over. -/
def encodePayload (p : JwtPayload) : String :=
  "id:" ++ toString p.id ++ ";email:" ++ p.email ++ ";role:" ++ p.role ++
  ";iat:" ++ toString p.iat ++ ";exp:" ++ toString p.exp

/-- A signed token: payload plus signature bytes. -/
structure SignedToken where
  payload : JwtPayload
  sig : List Nat
deriving DecidableEq, Repr

/-- The HMAC-SHA256 signature of a payload under the server secret. -/
def signPayload (secret : String) (p : JwtPayload) : List Nat :=
  hmacSha256 (strBytes secret) (strBytes (encodePayload p))

/-- Modelled from the spec: §4.2 `issue(accountId, identity, role, ttl) → token`,
a structure whose payload is tamper-evident via a symmetric signature keyed
by a server-held secret (the `jsonwebtoken` sign call is not repository
source).  `now` and `ttl` are in seconds. -/
def jwtSign (secret : String) (now ttl : Nat) (id : Nat) (email role : String) : SignedToken :=
  let p : JwtPayload := ⟨id, email, role, now, now + ttl⟩
  ⟨p, signPayload secret p⟩

/-- Modelled from the spec: §4.2 `verify(token) → {accountId, identity, role} | Invalid`;
Invalid when the signature does not match or current time ≥ expiry
(the `jsonwebtoken` verify call is not repository source). -/
def jwtVerify (secret : String) (now : Nat) (t : SignedToken) : Option JwtPayload :=
  if t.sig = signPayload secret t.payload ∧ now < t.payload.exp then some t.payload else none

/-- The '7d' login-token lifetime (src/server.js line 1139), in seconds. -/
def sevenDaysSec : Nat := 604800

/-! ## Request pipeline: auth middleware, role check, CSRF guard -/

/-- HTTP methods of interest to the pipeline. -/
inductive Method where
  | GET
  | HEAD
  | POST
  | PUT
  | PATCH
  | DELETE
deriving DecidableEq, Repr

/-- Outcome of a route: an error status + message, or a handler value. -/
inductive RouteResult (α : Type) where
  | err (status : Nat) (msg : String)
  | ok (val : α)
deriving DecidableEq, Repr

/-- A request as the security pipeline sees it: method, the token from the
`Authorization: Bearer` header and from the `token` cookie, and the CSRF
cookie secret / `X-CSRF-Token` header pair. -/
structure Request where
  method : Method
  bearerToken : Option SignedToken
  cookieToken : Option SignedToken
  csrfCookieSecret : Option String
  csrfHeader : Option String

/-- Token transport (src/server.js line 1078):
`req.headers.authorization?.split(' ')[1] || req.cookies.token` —
header token takes precedence over the cookie token. -/
def tokenOf (req : Request) : Option SignedToken :=
  req.bearerToken <|> req.cookieToken

/-- `authMiddleware` (src/server.js lines 1076-1092): 401 when no token is
presented, 401 when verification fails, otherwise the decoded payload is
attached to the request. -/
def authMiddleware (secret : String) (now : Nat) (req : Request) : RouteResult JwtPayload :=
  match tokenOf req with
  | none => .err 401 "Token não fornecido"
  | some t =>
    match jwtVerify secret now t with
    | none => .err 401 "Token inválido"
    | some p => .ok p

/-- `adminMiddleware` (src/server.js lines 1094-1104): 403 when the
verified role is not `admin`, otherwise fall through to the handler. -/
def adminCheck (p : JwtPayload) : Option (Nat × String) :=
  if p.role ≠ "admin" then some (403, "Acesso negado. Apenas administradores.") else none

/-- A role-gated admin route: `authMiddleware` then `adminMiddleware` then
the handler, in the order the routes mount them (src/server.js line 1439 etc.). -/
def handleAdminRoute {α : Type} (secret : String) (now : Nat) (req : Request)
    (handler : JwtPayload → RouteResult α) : RouteResult α :=
  match authMiddleware secret now req with
  | .err s m => .err s m
  | .ok p =>
    match adminCheck p with
    | some (s, m) => .err s m
    | none => handler p

/-- The methods the CSRF guard checks; per spec §4.3 only
`{POST, PUT, PATCH, DELETE}` are checked, GET/HEAD bypass. -/
def methodNeedsCsrf : Method → Bool
  | .POST => true
  | .PUT => true
  | .PATCH => true
  | .DELETE => true
  | _ => false

/-- Modelled from the spec: §4.3 double-submit — the anti-forgery token the
server can independently mint from the request's own CSRF cookie secret
(the `csurf` library is not repository source). -/
def csrfTokenOf (cookieSecret : String) : String := toHexStr (sha256 (strBytes cookieSecret))

/-- Modelled from the spec: §4.3 `validate(requestHeaderToken)` — for
checked methods the `X-CSRF-Token` header must match the value mintable
from the CSRF cookie; missing cookie or header rejects; GET/HEAD bypass. -/
def csrfGuard (method : Method) (cookieSecret headerToken : Option String) : Bool :=
  if methodNeedsCsrf method then
    match cookieSecret, headerToken with
    | some cs, some h => h = csrfTokenOf cs
    | _, _ => false
  else true

/-- A CSRF-protected admin mutation route
(src/server.js lines 1565, 1612: `csrfProtection, authMiddleware, adminMiddleware, handler`):
the CSRF guard runs first; on failure the request is rejected 403 with the
`csurf` forbidden error, distinct from the role-denial response. -/
def handleAdminMutation {α : Type} (secret : String) (now : Nat) (req : Request)
    (handler : JwtPayload → RouteResult α) : RouteResult α :=
  if csrfGuard req.method req.csrfCookieSecret req.csrfHeader then
    handleAdminRoute secret now req handler
  else .err 403 "invalid csrf token"

/-! ## Startup validation and the legacy variant

The hardened server validates `JWT_SECRET` at startup
(src/server.js lines 664-669) and exits when it is absent or shorter than
32 characters.  The legacy variant (first document in src/server.js,
lines 89-106) performs no startup validation and resolves
`process.env.JWT_SECRET || 'seu-secret-super-seguro-mude-isso'` inside its
authentication middleware instead. -/

/-- Startup gate (src/server.js lines 664-669):
`if (!JWT_SECRET || JWT_SECRET.length < 32) process.exit(1)`.
`true` means the process proceeds; `none` models an unset variable and an
empty string is falsy in JS exactly as its length 0 is below 32. -/
def startupSecretOk (jwtSecret : Option String) : Bool :=
  match jwtSecret with
  | none => false
  | some s => decide (32 ≤ s.length)

/-- The hard-coded fallback secret of the legacy variant (src/server.js line 97). -/
def defaultJwtSecret : String := "seu-secret-super-seguro-mude-isso"

/-- Legacy secret resolution (src/server.js line 97):
`process.env.JWT_SECRET || 'seu-secret-super-seguro-mude-isso'`
(an empty env value is falsy in JS). -/
def legacyJwtSecret (envSecret : Option String) : String :=
  match envSecret with
  | none => defaultJwtSecret
  | some s => if s = "" then defaultJwtSecret else s

/-- Legacy `authenticateToken` (src/server.js lines 89-106): 401 when no
bearer token, 403 when verification fails, with the secret resolved via
the default fallback. -/
def legacyAuthenticateToken (envSecret : Option String) (now : Nat)
    (bearer : Option SignedToken) : RouteResult JwtPayload :=
  match bearer with
  | none => .err 401 "Token de autenticação não fornecido"
  | some t =>
    match jwtVerify (legacyJwtSecret envSecret) now t with
    | none => .err 403 "Token inválido ou expirado"
    | some p => .ok p

/-! ## Rate limiter

`leadsLimiter` (src/server.js lines 790-800) is an `express-rate-limit`
fixed-window counter: default window 60 minutes, default max 3, with a
custom 429 handler.  The library is not repository source; the counter is
modelled from the spec (§4.4). -/

/-- A per-(client, tier) counter: request count and window start. -/
structure RLState where
  count : Nat
  windowStart : Nat
deriving DecidableEq, Repr

/-- Outcome of one pass through the limiter. -/
inductive RLOutcome where
  | allowed
  | limited (retryAfter : Nat)
deriving DecidableEq, Repr

/-- Modelled from the spec: §4.4 — if no counter exists or the window has
elapsed, reset count=1 and window-start=now; else increment. -/
def rlNext (windowMs now : Nat) : Option RLState → RLState
  | none => ⟨1, now⟩
  | some s0 => if s0.windowStart + windowMs ≤ now then ⟨1, now⟩ else ⟨s0.count + 1, s0.windowStart⟩

/-- Modelled from the spec: §4.4 — if count > limit, reject with a
`retryAfter` hint equal to the remaining window time. -/
def rlOutcome (limit windowMs now : Nat) (s : RLState) : RLOutcome :=
  if limit < s.count then .limited (s.windowStart + windowMs - now) else .allowed

/-- One limiter pass: update the counter, then decide the outcome. -/
def rateLimitStep (limit windowMs now : Nat) (st : Option RLState) : RLState × RLOutcome :=
  let s := rlNext windowMs now st
  (s, rlOutcome limit windowMs now s)

/-- Run the limiter over a sequence of request times for one counter,
returning the outcomes and the final counter. -/
def rateLimitRun (limit windowMs : Nat) : Option RLState → List Nat → List RLOutcome × Option RLState
  | st, [] => ([], st)
  | st, t :: ts =>
    let so := rateLimitStep limit windowMs t st
    let rest := rateLimitRun limit windowMs (some so.1) ts
    (so.2 :: rest.1, rest.2)

/-- One limiter pass over a store keyed by client IP (spec §3:
key = (client IP, limiter tier)). -/
def rateLimitKeyed (limit windowMs : Nat) (store : String → Option RLState)
    (ip : String) (now : Nat) : (String → Option RLState) × RLOutcome :=
  let so := rateLimitStep limit windowMs now (store ip)
  (fun k => if k = ip then some so.1 else store k, so.2)

/-- Run the keyed limiter over a sequence of (client IP, time) requests. -/
def rateLimitRunKeyed (limit windowMs : Nat) :
    (String → Option RLState) → List (String × Nat) → List RLOutcome
  | _, [] => []
  | store, r :: rs =>
    let so := rateLimitKeyed limit windowMs store r.1 r.2
    so.2 :: rateLimitRunKeyed limit windowMs so.1 rs

/-- Lead-limiter window (src/server.js line 791):
`(process.env.RATE_LIMIT_LEADS_WINDOW_MINUTES || 60) * 60 * 1000`. -/
def leadsLimiterWindowMs (envMinutes : Option Nat) : Nat := envMinutes.getD 60 * 60 * 1000

/-- Lead-limiter max (src/server.js line 792):
`process.env.RATE_LIMIT_LEADS_MAX || 3`. -/
def leadsLimiterMax (envMax : Option Nat) : Nat := envMax.getD 3

/-- The custom 429 rejection of the leads limiter (src/server.js lines 796-799). -/
def leadsLimitedResp : Nat × String :=
  (429, "Você já enviou muitos formulários. Tente novamente em 1 hora.")

/-! ## Login -/

/-- A row of the `users` table (src/server.js lines 898-905): the
`password` column holds the bcrypt hash. -/
structure User where
  id : Nat
  name : String
  email : String
  password : String
  role : String
deriving DecidableEq, Repr

/-- Result of the login route. -/
inductive LoginResult where
  | failure (status : Nat) (msg : String)
  | success (token : SignedToken) (id : Nat) (name email role : String)
deriving DecidableEq, Repr

/-- `SELECT * FROM users WHERE email = ?` (src/server.js line 1122). -/
def findUser (users : List User) (email : String) : Option User :=
  users.find? (fun u => u.email = email)

/-- The login handler after schema validation (src/server.js lines 1116-1153):
unknown email → 401 generic body; `bcryptjs.compareSync` false → the same
401 generic body; otherwise sign a 7-day token over `{id, email, role}`.
`checkPw plaintext hash` stands for the external bcrypt compare. -/
def loginHandler (checkPw : String → String → Bool) (users : List User)
    (secret : String) (now : Nat) (email password : String) : LoginResult :=
  match findUser users email with
  | none => .failure 401 "Credenciais inválidas"
  | some u =>
    if checkPw password u.password then
      .success (jwtSign secret now sevenDaysSec u.id u.email u.role) u.id u.name u.email u.role
    else .failure 401 "Credenciais inválidas"

/-! ## Lead creation and webhook dispatch -/

/-- The validated lead payload after `leadSchema.parse`
(src/server.js lines 839-855): optional fields may be absent (`none`) or
the empty string, which the schema admits via `or(z.literal(''))`. -/
structure LeadInput where
  name : String
  email : Option String
  whatsapp : String
  city : Option String
  level : Option String
  goal : Option String
  schedule : Option String
  message : Option String
  source : Option String
  utm_source : Option String
  utm_medium : Option String
  utm_campaign : Option String
deriving DecidableEq, Repr

/-- JS `x || d` over an optional string: absent or empty falls to the default. -/
def orDefault (v : Option String) (d : String) : String :=
  match v with
  | none => d
  | some s => if s = "" then d else s

/-- JS `x || null` over an optional string: absent or empty is stored NULL. -/
def orNull (v : Option String) : Option String :=
  match v with
  | some "" => none
  | x => x

/-- A stored `leads` row; the four tracking columns are non-nullable here
because the insert always defaults them. -/
structure LeadRow where
  id : Nat
  name : String
  email : Option String
  whatsapp : String
  city : Option String
  level : Option String
  goal : Option String
  schedule : Option String
  message : Option String
  source : String
  utm_source : String
  utm_medium : String
  utm_campaign : String
  status : String
deriving DecidableEq, Repr

/-- `insert.run` (src/server.js lines 1291-1312): nullable fields default
to NULL, tracking fields default to `'direct'`/`'none'`; status column
defaults to `'new'` (schema line 921). -/
def leadRowOf (input : LeadInput) (id : Nat) : LeadRow :=
  { id := id
    name := input.name
    email := orNull input.email
    whatsapp := input.whatsapp
    city := orNull input.city
    level := orNull input.level
    goal := orNull input.goal
    schedule := orNull input.schedule
    message := orNull input.message
    source := orDefault input.source "direct"
    utm_source := orDefault input.utm_source "direct"
    utm_medium := orDefault input.utm_medium "none"
    utm_campaign := orDefault input.utm_campaign "none"
    status := "new" }

/-- The webhook envelope (src/server.js lines 1322-1330): raw validated
fields plus the same tracking defaults and an ISO timestamp. -/
structure WebhookData where
  id : Nat
  name : String
  whatsapp : String
  city : Option String
  level : Option String
  goal : Option String
  schedule : Option String
  message : Option String
  email : Option String
  source : String
  utm_source : String
  utm_medium : String
  utm_campaign : String
  timestamp : String
deriving DecidableEq, Repr

/-- Build the webhook envelope from the validated input. -/
def webhookDataOf (input : LeadInput) (id : Nat) (ts : String) : WebhookData :=
  { id := id
    name := input.name
    whatsapp := input.whatsapp
    city := input.city
    level := input.level
    goal := input.goal
    schedule := input.schedule
    message := input.message
    email := input.email
    source := orDefault input.source "direct"
    utm_source := orDefault input.utm_source "direct"
    utm_medium := orDefault input.utm_medium "none"
    utm_campaign := orDefault input.utm_campaign "none"
    timestamp := ts }

/-- How the single webhook delivery attempt ended. -/
inductive WebhookOutcome where
  | delivered
  | httpError (status : Nat)
  | netError (msg : String)
deriving DecidableEq, Repr

/-- What the POST /api/leads handler produced: the stored row, the list of
outbound webhook requests it attempted, and the HTTP response status. -/
structure LeadCreationResult where
  stored : LeadRow
  dispatches : List WebhookData
  status : Nat
  leadId : Nat
  leadName : String
  leadWhatsapp : String
deriving DecidableEq, Repr

/-- POST /api/leads after validation (src/server.js lines 1272-1375): store
the row; when `WEBHOOK_URL` is configured, dispatch the envelope exactly
once inside a try/catch whose only action on failure is a log line
(lines 1352-1368); finally respond 201 with `{id, name, whatsapp}`.  The
delivery `outcome` is an input of the model and, as in the code, is only
consumed by logging. -/
def createLead (webhookUrl : Option String) (input : LeadInput) (newId : Nat)
    (ts : String) (outcome : WebhookOutcome) : LeadCreationResult :=
  let row := leadRowOf input newId
  let dispatches :=
    match webhookUrl with
    | none => []
    | some _ =>
      let _logLine :=
        match outcome with
        | .delivered => "Webhook enviado com sucesso"
        | .httpError _ => "Webhook retornou erro"
        | .netError _ => "Erro ao enviar webhook"
      [webhookDataOf input newId ts]
  { stored := row
    dispatches := dispatches
    status := 201
    leadId := newId
    leadName := input.name
    leadWhatsapp := input.whatsapp }

/-! ## Shared lemmas -/

/-- Verification of a freshly signed token before expiry returns the signed payload. -/
theorem jwtVerify_jwtSign (secret : String) (now ttl id : Nat) (email role : String)
    (t : Nat) (h : t < now + ttl) :
    jwtVerify secret t (jwtSign secret now ttl id email role) =
      some ⟨id, email, role, now, now + ttl⟩ := by
  unfold jwtVerify jwtSign
  simp [h]

/-- Requests all from one client IP reduce the keyed limiter to the single counter. -/
theorem rateLimitRunKeyed_same_ip (limit W : Nat) (store : String → Option RLState)
    (ip : String) (times : List Nat) :
    rateLimitRunKeyed limit W store (times.map (fun t => (ip, t))) =
      (rateLimitRun limit W (store ip) times).1 := by
  induction times generalizing store with
  | nil => rfl
  | cons t ts ih =>
    simp only [List.map_cons, rateLimitRunKeyed, rateLimitKeyed, rateLimitRun]
    rw [ih]
    simp

/-- Running the limiter over an appended request list splits into two runs. -/
theorem rateLimitRun_append (limit W : Nat) (st : Option RLState) (ts us : List Nat) :
    rateLimitRun limit W st (ts ++ us) =
      ((rateLimitRun limit W st ts).1 ++
        (rateLimitRun limit W (rateLimitRun limit W st ts).2 us).1,
       (rateLimitRun limit W (rateLimitRun limit W st ts).2 us).2) := by
  induction ts generalizing st with
  | nil => simp [rateLimitRun]
  | cons t ts ih =>
    simp only [List.cons_append, rateLimitRun, List.append_eq]
    rw [ih]

/-- Within an open window, requests are allowed while the counter stays at
or below the limit, and the counter just increments. -/
theorem rateLimitRun_inWindow (limit W ws : Nat) (ts : List Nat) (c : Nat)
    (hin : ∀ t ∈ ts, t < ws + W) (hc : c + ts.length ≤ limit) :
    rateLimitRun limit W (some ⟨c, ws⟩) ts =
      (ts.map (fun _ => RLOutcome.allowed), some ⟨c + ts.length, ws⟩) := by
  induction ts generalizing c with
  | nil => simp [rateLimitRun]
  | cons t ts ih =>
    have hlen : (t :: ts).length = ts.length + 1 := rfl
    rw [hlen] at hc
    have ht : t < ws + W := hin t (by simp)
    have h1 : ¬ (ws + W ≤ t) := by omega
    have h2 : ¬ (limit < c + 1) := by omega
    have hstep : rateLimitStep limit W t (some ⟨c, ws⟩) = (⟨c + 1, ws⟩, RLOutcome.allowed) := by
      simp [rateLimitStep, rlNext, rlOutcome, h1, h2]
    simp only [rateLimitRun]
    rw [hstep]
    simp only []
    rw [ih (c + 1) (fun x hx => hin x (by simp [hx])) (by omega)]
    have e : c + 1 + ts.length = c + (ts.length + 1) := by omega
    simp [e, hlen]

/-! ## The claims -/

/-- C1: a request to a role-gated admin route carrying a validly-signed,
unexpired token whose role is not `admin` is answered by the 403
authorization denial, never a 401; and whenever `authMiddleware` fails,
the route's response is exactly that auth error — the role check is never
evaluated before token verification has succeeded. -/
theorem c1_admin_wrong_role_403 {α : Type} (secret : String) (now : Nat) (req : Request)
    (handler : JwtPayload → RouteResult α) (t : SignedToken) (p : JwtPayload)
    (htok : tokenOf req = some t) (hver : jwtVerify secret now t = some p)
    (hrole : p.role ≠ "admin") :
    handleAdminRoute secret now req handler =
      .err 403 "Acesso negado. Apenas administradores." ∧
    (∀ m : String,
      (RouteResult.err 403 "Acesso negado. Apenas administradores." : RouteResult α) ≠
        .err 401 m) ∧
    (∀ (req2 : Request) (h2 : JwtPayload → RouteResult α) (s : Nat) (m : String),
      authMiddleware secret now req2 = .err s m →
      handleAdminRoute secret now req2 h2 = .err s m) := by
  refine ⟨?_, ?_, ?_⟩
  · simp [handleAdminRoute, authMiddleware, htok, hver, adminCheck, hrole]
  · intro m h
    cases h
  · intro req2 h2 s m hfail
    unfold handleAdminRoute
    rw [hfail]

/-- Witness for C1 at a concrete request: a valid 100-second token for a
non-admin user, checked at time 10. -/
theorem c1_admin_wrong_role_403_witness :
    tokenOf ⟨.GET, some (jwtSign "s" 0 100 7 "u@x.com" "user"), none, none, none⟩ =
      some (jwtSign "s" 0 100 7 "u@x.com" "user") ∧
    jwtVerify "s" 10 (jwtSign "s" 0 100 7 "u@x.com" "user") =
      some ⟨7, "u@x.com", "user", 0, 100⟩ ∧
    handleAdminRoute "s" 10
        ⟨.GET, some (jwtSign "s" 0 100 7 "u@x.com" "user"), none, none, none⟩
        (fun _ => RouteResult.ok (0 : Nat)) =
      .err 403 "Acesso negado. Apenas administradores." := by
  have hver : jwtVerify "s" 10 (jwtSign "s" 0 100 7 "u@x.com" "user") =
      some ⟨7, "u@x.com", "user", 0, 100⟩ :=
    jwtVerify_jwtSign "s" 0 100 7 "u@x.com" "user" 10 (by omega)
  exact ⟨rfl, hver,
    (c1_admin_wrong_role_403 "s" 10
      ⟨.GET, some (jwtSign "s" 0 100 7 "u@x.com" "user"), none, none, none⟩
      (fun _ => RouteResult.ok (0 : Nat)) (jwtSign "s" 0 100 7 "u@x.com" "user")
      ⟨7, "u@x.com", "user", 0, 100⟩ rfl hver (by decide)).1⟩

/-- C2 counterexample: the claim says the process never runs with a default
secret, but the legacy variant (first document in src/server.js, lines
89-106) has no startup gate: with `JWT_SECRET` absent from the environment
it resolves the hard-coded default secret and successfully authenticates a
request whose token is signed under that default — the process is running
with a default secret. -/
theorem c2_legacy_default_secret_cex :
    legacyAuthenticateToken none 5
        (some (jwtSign defaultJwtSecret 0 100 1 "admin@x.com" "admin")) =
      .ok ⟨1, "admin@x.com", "admin", 0, 100⟩ ∧
    legacyJwtSecret none = "seu-secret-super-seguro-mude-isso" ∧
    startupSecretOk none = false := by
  refine ⟨?_, rfl, rfl⟩
  unfold legacyAuthenticateToken
  simp only [show legacyJwtSecret none = defaultJwtSecret from rfl,
    jwtVerify_jwtSign defaultJwtSecret 0 100 1 "admin@x.com" "admin" 5 (by omega)]

/-- C2 (amended): the hardened server's startup gate (src/server.js lines
664-669) refuses to start when `JWT_SECRET` is absent or shorter than 32
characters, and proceeds exactly on a secret of at least 32 characters;
the legacy variant, by contrast, has no gate and falls back to the
hard-coded default secret. -/
theorem c2_startup_secret_gate (s : String) (h : s.length < 32) :
    startupSecretOk (some s) = false ∧ startupSecretOk none = false ∧
    (∀ s2 : String, 32 ≤ s2.length → startupSecretOk (some s2) = true) ∧
    legacyJwtSecret none = defaultJwtSecret := by
  refine ⟨?_, rfl, ?_, rfl⟩
  · unfold startupSecretOk
    simp
    omega
  · intro s2 h2
    unfold startupSecretOk
    simpa using h2

/-- Witness for C2 (amended) at the 5-character secret `"short"`. -/
theorem c2_startup_secret_gate_witness :
    ("short".length < 32) ∧ startupSecretOk (some "short") = false := by
  exact ⟨by decide, (c2_startup_secret_gate "short" (by decide)).1⟩

/-- C3: for the lead-submission limiter (default max 3, window 60 minutes,
src/server.js lines 790-800; counter modelled from spec §4.4), for every
client IP starting fresh: the first N in-window requests are allowed, the
(N+1)th is rejected with a retry-after hint equal to the remaining window
time, and a request after the window elapses is allowed again; the
rejection is the 429 response. -/
theorem c3_leads_rate_limit_window (N W : Nat) (ip : String)
    (store : String → Option RLState) (t1 tLim tNew : Nat) (ts : List Nat)
    (hstore : store ip = none) (hN : 1 ≤ N) (hlen : ts.length + 1 = N)
    (hts : ∀ t ∈ ts, t < t1 + W) (hLim : tLim < t1 + W) (hNew : t1 + W ≤ tNew) :
    rateLimitRunKeyed N W store
        (((t1 :: ts) ++ [tLim, tNew]).map (fun t => (ip, t))) =
      (RLOutcome.allowed :: ts.map (fun _ => RLOutcome.allowed)) ++
        [RLOutcome.limited (t1 + W - tLim), RLOutcome.allowed] ∧
    leadsLimiterMax none = 3 ∧ leadsLimiterWindowMs none = 3600000 ∧
    leadsLimitedResp.1 = 429 := by
  refine ⟨?_, rfl, rfl, rfl⟩
  rw [rateLimitRunKeyed_same_ip, hstore]
  have hnn : ¬ (N < 1) := by omega
  have hstep1 : rateLimitStep N W t1 none = (⟨1, t1⟩, RLOutcome.allowed) := by
    simp [rateLimitStep, rlNext, rlOutcome, hnn]
  have hrun1 : rateLimitRun N W (some ⟨1, t1⟩) ts =
      (ts.map (fun _ => RLOutcome.allowed), some ⟨N, t1⟩) := by
    rw [rateLimitRun_inWindow N W t1 ts 1 hts (by omega)]
    have e : 1 + ts.length = N := by omega
    simp [e]
  have hstepLim : rateLimitStep N W tLim (some ⟨N, t1⟩) =
      (⟨N + 1, t1⟩, RLOutcome.limited (t1 + W - tLim)) := by
    have h1 : ¬ (t1 + W ≤ tLim) := by omega
    have h2 : N < N + 1 := Nat.lt_succ_self N
    simp [rateLimitStep, rlNext, rlOutcome, h1, h2]
  have hstepNew : rateLimitStep N W tNew (some ⟨N + 1, t1⟩) =
      (⟨1, tNew⟩, RLOutcome.allowed) := by
    simp [rateLimitStep, rlNext, rlOutcome, hNew, hnn]
  simp only [List.cons_append, rateLimitRun, List.append_eq]
  rw [hstep1]
  simp only []
  rw [rateLimitRun_append, hrun1]
  simp only [rateLimitRun]
  rw [hstepLim]
  simp only []
  rw [hstepNew]

/-- Witness for C3 at the default configuration: max 3, window 3600000 ms,
requests from one IP at 0, 1000, 2000 (allowed), 3000 (limited, retry
after 3597000 ms) and 3600000 (allowed again). -/
theorem c3_leads_rate_limit_window_witness :
    ((fun _ : String => (none : Option RLState)) "1.2.3.4" = none) ∧
    rateLimitRunKeyed 3 3600000 (fun _ => none)
        (((0 :: [1000, 2000]) ++ [3000, 3600000]).map (fun t => ("1.2.3.4", t))) =
      (RLOutcome.allowed :: [1000, 2000].map (fun _ => RLOutcome.allowed)) ++
        [RLOutcome.limited (0 + 3600000 - 3000), RLOutcome.allowed] := by
  refine ⟨rfl, ?_⟩
  exact (c3_leads_rate_limit_window 3 3600000 "1.2.3.4" (fun _ => none) 0 3000 3600000
    [1000, 2000] rfl (by decide) (by decide) (by decide) (by decide) (by decide)).1

/-- C4: round-trip — verifying a token produced by the login signer
(payload `{id, email, role}`, ttl seconds) at any time before expiry
returns exactly the issued payload. -/
theorem c4_token_round_trip (secret : String) (id : Nat) (email role : String)
    (now ttl t : Nat) (_hpos : 0 < ttl) (hbefore : t < now + ttl) :
    jwtVerify secret t (jwtSign secret now ttl id email role) =
      some ⟨id, email, role, now, now + ttl⟩ :=
  jwtVerify_jwtSign secret now ttl id email role t hbefore

/-- Witness for C4: a 7-day token issued at time 0 for the admin account,
verified at time 3600. -/
theorem c4_token_round_trip_witness :
    (0 < sevenDaysSec) ∧ (3600 < 0 + sevenDaysSec) ∧
    jwtVerify "server-secret" 3600
        (jwtSign "server-secret" 0 sevenDaysSec 1 "admin@x.com" "admin") =
      some ⟨1, "admin@x.com", "admin", 0, 0 + sevenDaysSec⟩ := by
  exact ⟨by decide, by decide,
    c4_token_round_trip "server-secret" 1 "admin@x.com" "admin" 0 sevenDaysSec 3600
      (by decide) (by decide)⟩

/-- C5: a token whose expires-at is in the past always fails verification —
for every token, validly signed or not — and the auth middleware rejects
the request 401. -/
theorem c5_expired_token_rejected (secret : String) (now : Nat) (t : SignedToken)
    (req : Request) (hexp : t.payload.exp < now) (htok : tokenOf req = some t) :
    jwtVerify secret now t = none ∧
    authMiddleware secret now req = .err 401 "Token inválido" := by
  have hv : jwtVerify secret now t = none := by
    unfold jwtVerify
    rw [if_neg]
    rintro ⟨-, h⟩
    omega
  refine ⟨hv, ?_⟩
  simp [authMiddleware, htok, hv]

/-- Witness for C5: a token that expired at time 10, presented at time 20;
its signature bytes are exactly the valid signature of its payload. -/
theorem c5_expired_token_rejected_witness :
    ((jwtSign "s" 0 10 1 "admin@x.com" "admin").payload.exp < 20) ∧
    authMiddleware "s" 20
        ⟨.GET, some (jwtSign "s" 0 10 1 "admin@x.com" "admin"), none, none, none⟩ =
      .err 401 "Token inválido" := by
  exact ⟨by decide,
    (c5_expired_token_rejected "s" 20 (jwtSign "s" 0 10 1 "admin@x.com" "admin")
      ⟨.GET, some (jwtSign "s" 0 10 1 "admin@x.com" "admin"), none, none, none⟩
      (by decide) rfl).2⟩

/-- C6: for every login request whose password is invalid, the handler
answers the same generic 401 body whether or not the submitted identity
exists — two runs, one against a store where the identity is unknown and
one where it is known with a wrong password, produce identical responses. -/
theorem c6_login_invalid_password_indistinguishable (checkPw : String → String → Bool)
    (users₁ users₂ : List User) (secret₁ secret₂ : String) (now₁ now₂ : Nat)
    (email₁ email₂ pw₁ pw₂ : String)
    (h₁ : findUser users₁ email₁ = none ∨
      ∃ u, findUser users₁ email₁ = some u ∧ checkPw pw₁ u.password = false)
    (h₂ : findUser users₂ email₂ = none ∨
      ∃ u, findUser users₂ email₂ = some u ∧ checkPw pw₂ u.password = false) :
    loginHandler checkPw users₁ secret₁ now₁ email₁ pw₁ =
      .failure 401 "Credenciais inválidas" ∧
    loginHandler checkPw users₁ secret₁ now₁ email₁ pw₁ =
      loginHandler checkPw users₂ secret₂ now₂ email₂ pw₂ := by
  have key : ∀ (users : List User) (secret : String) (now : Nat) (email pw : String),
      (findUser users email = none ∨
        ∃ u, findUser users email = some u ∧ checkPw pw u.password = false) →
      loginHandler checkPw users secret now email pw =
        .failure 401 "Credenciais inválidas" := by
    intro users secret now email pw h
    unfold loginHandler
    rcases h with h | ⟨u, hu, hpw⟩
    · rw [h]
    · rw [hu]
      simp [hpw]
  have k1 := key users₁ secret₁ now₁ email₁ pw₁ h₁
  have k2 := key users₂ secret₂ now₂ email₂ pw₂ h₂
  exact ⟨k1, k1.trans k2.symm⟩

/-- Witness for C6: the seeded admin account with a wrong password versus
an unknown identity against an empty store — identical 401 bodies. -/
theorem c6_login_indistinguishable_witness :
    loginHandler (fun p h => p == h)
        [⟨1, "Admin", "admin@x.com", "Str0ng!Pass#123", "admin"⟩]
        "sec" 0 "admin@x.com" "Wrong!" =
      .failure 401 "Credenciais inválidas" ∧
    loginHandler (fun p h => p == h)
        [⟨1, "Admin", "admin@x.com", "Str0ng!Pass#123", "admin"⟩]
        "sec" 0 "admin@x.com" "Wrong!" =
      loginHandler (fun p h => p == h) [] "sec2" 99 "ghost@x.com" "Wrong!" := by
  exact c6_login_invalid_password_indistinguishable (fun p h => p == h)
    [⟨1, "Admin", "admin@x.com", "Str0ng!Pass#123", "admin"⟩] [] "sec" "sec2" 0 99
    "admin@x.com" "ghost@x.com" "Wrong!" "Wrong!"
    (Or.inr ⟨⟨1, "Admin", "admin@x.com", "Str0ng!Pass#123", "admin"⟩, by decide, by decide⟩)
    (Or.inl rfl)

/-- C7: a mutating request to a CSRF-protected admin route whose anti-forgery
check fails is answered by the CSRF 403 — a distinct error from the role
denial — even when the request carries a valid admin token; and the CSRF
guard bypasses GET and HEAD. -/
theorem c7_csrf_mutation_rejected {α : Type} (secret : String) (now : Nat) (req : Request)
    (handler : JwtPayload → RouteResult α) (t : SignedToken) (p : JwtPayload)
    (_htok : tokenOf req = some t) (_hver : jwtVerify secret now t = some p)
    (_hadmin : p.role = "admin") (_hmut : methodNeedsCsrf req.method = true)
    (hcsrf : csrfGuard req.method req.csrfCookieSecret req.csrfHeader = false) :
    handleAdminMutation secret now req handler = .err 403 "invalid csrf token" ∧
    (RouteResult.err 403 "invalid csrf token" : RouteResult α) ≠
      .err 403 "Acesso negado. Apenas administradores." ∧
    (∀ (cs h : Option String), csrfGuard .GET cs h = true ∧ csrfGuard .HEAD cs h = true) := by
  refine ⟨?_, by simp, fun cs h => ⟨rfl, rfl⟩⟩
  unfold handleAdminMutation
  rw [hcsrf]
  simp

/-- Witness for C7: a PATCH carrying a valid admin token but no
`X-CSRF-Token` header. -/
theorem c7_csrf_mutation_rejected_witness :
    (methodNeedsCsrf Method.PATCH = true) ∧
    (csrfGuard Method.PATCH (some "cookie-secret") none = false) ∧
    handleAdminMutation "s" 10
        ⟨.PATCH, some (jwtSign "s" 0 100 1 "a@x.com" "admin"), none,
          some "cookie-secret", none⟩
        (fun _ => RouteResult.ok (0 : Nat)) =
      .err 403 "invalid csrf token" := by
  have hver : jwtVerify "s" 10 (jwtSign "s" 0 100 1 "a@x.com" "admin") =
      some ⟨1, "a@x.com", "admin", 0, 100⟩ :=
    jwtVerify_jwtSign "s" 0 100 1 "a@x.com" "admin" 10 (by omega)
  exact ⟨rfl, rfl,
    (c7_csrf_mutation_rejected "s" 10
      ⟨.PATCH, some (jwtSign "s" 0 100 1 "a@x.com" "admin"), none,
        some "cookie-secret", none⟩
      (fun _ => RouteResult.ok (0 : Nat)) (jwtSign "s" 0 100 1 "a@x.com" "admin")
      ⟨1, "a@x.com", "admin", 0, 100⟩ rfl hver rfl rfl rfl).1⟩

/-- C8: webhook delivery is fire-and-forget — when a webhook URL is
configured, lead creation dispatches the envelope exactly once, the stored
row and the 201 response are the same whatever the delivery outcome, and a
failed delivery changes nothing about the result. -/
theorem c8_webhook_fire_and_forget (url : String) (input : LeadInput) (newId : Nat)
    (ts : String) (outcome₁ outcome₂ : WebhookOutcome) :
    (createLead (some url) input newId ts outcome₁).status = 201 ∧
    (createLead (some url) input newId ts outcome₁).dispatches.length = 1 ∧
    (createLead (some url) input newId ts outcome₁).stored = leadRowOf input newId ∧
    createLead (some url) input newId ts outcome₁ =
      createLead (some url) input newId ts outcome₂ :=
  ⟨rfl, rfl, rfl, rfl⟩

set_option maxRecDepth 400000 in
/-- C9: the webhook signature is deterministic — the same secret and the
same serialized payload always give the identical hex digest — and for the
concrete payloads `"payload0"` and `"payload1"`, which differ in exactly
one byte, the digests differ. -/
theorem c9_webhook_signature_deterministic_avalanche :
    (∀ secret payload : String, webhookSignature secret payload = webhookSignature secret payload) ∧
    diffCount (strBytes "payload0") (strBytes "payload1") = 1 ∧
    webhookSignature "sec" "payload0" ≠ webhookSignature "sec" "payload1" :=
  ⟨fun _ _ => rfl, by decide, by decide⟩

/-- C10: when the tracking fields of an accepted lead submission are absent
or empty, the stored row and the webhook envelope carry the defaults
`source='direct'`, `utm_source='direct'`, `utm_medium='none'`,
`utm_campaign='none'`; and for every input the stored tracking fields are
non-null (non-empty strings). -/
theorem c10_lead_tracking_defaults (input : LeadInput) (id : Nat) (ts : String)
    (hs : input.source = none ∨ input.source = some "")
    (hu1 : input.utm_source = none ∨ input.utm_source = some "")
    (hu2 : input.utm_medium = none ∨ input.utm_medium = some "")
    (hu3 : input.utm_campaign = none ∨ input.utm_campaign = some "") :
    (leadRowOf input id).source = "direct" ∧
    (leadRowOf input id).utm_source = "direct" ∧
    (leadRowOf input id).utm_medium = "none" ∧
    (leadRowOf input id).utm_campaign = "none" ∧
    (webhookDataOf input id ts).source = "direct" ∧
    (webhookDataOf input id ts).utm_source = "direct" ∧
    (webhookDataOf input id ts).utm_medium = "none" ∧
    (webhookDataOf input id ts).utm_campaign = "none" ∧
    (∀ (input2 : LeadInput) (id2 : Nat),
      (leadRowOf input2 id2).source ≠ "" ∧ (leadRowOf input2 id2).utm_source ≠ "" ∧
      (leadRowOf input2 id2).utm_medium ≠ "" ∧ (leadRowOf input2 id2).utm_campaign ≠ "") := by
  have hd : ∀ (v : Option String) (d : String), (v = none ∨ v = some "") → orDefault v d = d := by
    intro v d h
    rcases h with h | h <;> simp [orDefault, h]
  have hne : ∀ (v : Option String) (d : String), d ≠ "" → orDefault v d ≠ "" := by
    intro v d hdne
    unfold orDefault
    match v with
    | none => exact hdne
    | some s =>
      by_cases hs : s = "" <;> simp [hs, hdne]
  refine ⟨hd _ _ hs, hd _ _ hu1, hd _ _ hu2, hd _ _ hu3,
    hd _ _ hs, hd _ _ hu1, hd _ _ hu2, hd _ _ hu3, ?_⟩
  intro input2 id2
  exact ⟨hne _ _ (by simp), hne _ _ (by simp), hne _ _ (by simp), hne _ _ (by simp)⟩

/-- Witness for C10: a submission with every tracking field absent or empty. -/
theorem c10_lead_tracking_defaults_witness :
    (leadRowOf
        ⟨"Maria Silva", none, "11999990000", none, none, none, none, none,
          none, some "", none, some ""⟩ 1).source = "direct" ∧
    (leadRowOf
        ⟨"Maria Silva", none, "11999990000", none, none, none, none, none,
          none, some "", none, some ""⟩ 1).utm_campaign = "none" := by
  have h := c10_lead_tracking_defaults
    ⟨"Maria Silva", none, "11999990000", none, none, none, none, none,
      none, some "", none, some ""⟩ 1 "2026-01-01T00:00:00.000Z"
    (Or.inl rfl) (Or.inr rfl) (Or.inl rfl) (Or.inr rfl)
  exact ⟨h.1, h.2.2.2.1⟩

end LeadServer
